import Mathlib

/-!
Verification of the natural-language specification of `src/code_quality.py`
(PokeMentor) against a shallow embedding of its code.

Modelling conventions:
* Python dicts with a fixed field set become Lean structures; optional dict
  keys become `Option` fields, and Python's `d.get(k, v)` becomes `.getD v`.
* HTTP calls made by the remote adapter are modelled by an oracle
  (`SonarWorld`, `AiWorld`) that fixes each response's status and body; the
  adapter additionally returns the ordered trace of calls it issued.
* Python exceptions become `Except`: a raised exception is `Except.error`
  carrying `str(e)`.
* Python `float` metric values are modelled as rationals (`ℚ`); no claim
  settled here depends on binary floating-point rounding.
* Python's `re` module is modelled by a small regex AST (`Re`) together with
  the compile-time check that module performs: a look-behind group must have a
  fixed width, otherwise compilation raises
  `re.error("look-behind requires fixed-width pattern")`.
-/

/-- A normalized finding, as built by the analyzers.  Local findings carry no
"rule" key, remote ones do, hence `rule : Option String`. -/
structure Finding where
  line : Nat
  message : String
  severity : String
  type : String
  rule : Option String
deriving DecidableEq, Repr

/-- A raw issue as returned by the SonarCloud issues/search endpoint; every
field the code reads with `.get` is optional. -/
structure RawIssue where
  line : Option Nat
  message : Option String
  severity : Option String
  type : Option String
  rule : Option String
deriving DecidableEq, Repr

/-- A raw security hotspot as returned by hotspots/search. -/
structure RawHotspot where
  line : Option Nat
  message : Option String
  ruleKey : Option String
deriving DecidableEq, Repr

/-- The metric map fetched from measures/component, restricted to the eight
keys the code reads; a `none` field models an absent key. -/
structure SonarMetrics where
  ncloc : Option Int
  complexity : Option Int
  bugs : Option Int
  vulnerabilities : Option Int
  code_smells : Option Int
  security_hotspots : Option Int
  duplicated_lines_density : Option ℚ
  coverage : Option ℚ
deriving DecidableEq, Repr

/-- The empty metric map returned by `_get_metrics` on a non-200 response. -/
def emptyMetrics : SonarMetrics :=
  ⟨none, none, none, none, none, none, none, none⟩

/-- The formatted metrics block of a success-shaped remote result. -/
structure FormattedMetrics where
  lines_of_code : Int
  complexity : Int
  bugs : Int
  vulnerabilities : Int
  code_smells : Int
  security_hotspots : Int
  duplicate_lines_percentage : ℚ
  coverage : Option ℚ
deriving DecidableEq, Repr

/-- Result of `SonarCloudAnalyzer.analyze_code`: success-shaped
(issues, metrics, summary) or error-shaped (error, message).  The two shapes
are mutually exclusive by construction. -/
inductive SonarResult where
  | ok (issues : List Finding) (metrics : FormattedMetrics) (summary : String)
  | err (error : String) (message : String)
deriving DecidableEq, Repr

/-- One HTTP request issued by the remote adapter, with the page-size
parameter recorded for the two search endpoints. -/
inductive ApiCall where
  | create
  | sourceIndex
  | analysisSubmit
  | issuesSearch (ps : Nat)
  | hotspotsSearch (ps : Nat)
  | measures
  | deleteProject
deriving DecidableEq, Repr

/-- Oracle fixing the outcome of each HTTP call one remote analysis makes:
status codes, error-body texts, and parsed bodies of successful fetches.
`deleteStatus` exists to record that the code never reads the delete
response. -/
structure SonarWorld where
  createStatus : Nat
  createText : String
  sourceStatus : Nat
  sourceText : String
  submitStatus : Nat
  submitText : String
  issuesStatus : Nat
  issuesText : String
  issues : List RawIssue
  hotspotsStatus : Nat
  hotspots : List RawHotspot
  metricsStatus : Nat
  metrics : SonarMetrics
  deleteStatus : Nat
deriving DecidableEq, Repr

/-- Python's `str.lower()` (character-wise lower-casing). -/
def pyLower (s : String) : String := ⟨s.data.map Char.toLower⟩

namespace SonarCloudAnalyzer

/-- Embeds the per-issue arm of `_format_results`. -/
def issueToFinding (i : RawIssue) : Finding :=
  { line := i.line.getD 0
    message := i.message.getD ""
    severity := pyLower (i.severity.getD "")
    type := pyLower (i.type.getD "CODE_SMELL")
    rule := some (i.rule.getD "") }

/-- Embeds the per-hotspot arm of `_format_results`. -/
def hotspotToFinding (h : RawHotspot) : Finding :=
  { line := h.line.getD 0
    message := "Security hotspot: " ++ h.message.getD ""
    severity := "warning"
    type := "security"
    rule := some (h.ruleKey.getD "") }

/-- Renders a rational with one decimal digit, modelling Python's
`f"{x:.1f}"` (decimal rounding stands in for the float formatting; no claim
depends on this string). -/
def fmt1 (q : ℚ) : String :=
  let n : Int := ⌊q * 10 + 1 / 2⌋
  toString (n / 10) ++ "." ++ toString (n % 10)

/-- Embeds the `quality_issues` list built inside `_generate_summary`. -/
def quality_phrases (m : SonarMetrics) : List String :=
  let bugs := m.bugs.getD 0
  let vulnerabilities := m.vulnerabilities.getD 0
  let code_smells := m.code_smells.getD 0
  let duplication := m.duplicated_lines_density.getD 0
  (if bugs > 0 then
    [toString bugs ++ " potential bug" ++ (if bugs > 1 then "s" else "")]
   else []) ++
  (if vulnerabilities > 0 then
    [toString vulnerabilities ++ " securit" ++
      (if vulnerabilities > 1 then "ies" else "y") ++ " " ++
      (if vulnerabilities > 1 then "issues" else "issue")]
   else []) ++
  (if code_smells > 0 then
    [toString code_smells ++ " code smell" ++
      (if code_smells > 1 then "s" else "")]
   else []) ++
  (if duplication > 10 then [fmt1 duplication ++ "% code duplication"] else [])

/-- Embeds `SonarCloudAnalyzer._generate_summary`.  The `issues` argument is
received but, as in the source, only its length is ever computed and never
used. -/
def generate_summary (issues : List Finding) (m : SonarMetrics) : String :=
  let loc := m.ncloc.getD 0
  if loc = 0 then "No code detected for analysis."
  else
    let qs := quality_phrases m
    if qs.isEmpty then
      "No significant issues found in " ++ toString loc ++
        " lines of code. Good job!"
    else
      "Found " ++ String.intercalate ", " qs ++ " in " ++ toString loc ++
        " lines of code."

/-- Embeds the metric block built at the end of `_format_results`: each named
metric coerced with default 0, except `coverage`, which stays absent when the
key is missing. -/
def formatMetrics (m : SonarMetrics) : FormattedMetrics :=
  { lines_of_code := m.ncloc.getD 0
    complexity := m.complexity.getD 0
    bugs := m.bugs.getD 0
    vulnerabilities := m.vulnerabilities.getD 0
    code_smells := m.code_smells.getD 0
    security_hotspots := m.security_hotspots.getD 0
    duplicate_lines_percentage := m.duplicated_lines_density.getD 0
    coverage := m.coverage }

/-- Embeds `SonarCloudAnalyzer._format_results`: issue findings first, then
hotspot findings, then summary and formatted metrics. -/
def format_results (issues : List RawIssue) (hotspots : List RawHotspot)
    (m : SonarMetrics) : SonarResult :=
  let formatted_issues :=
    issues.map issueToFinding ++ hotspots.map hotspotToFinding
  SonarResult.ok formatted_issues (formatMetrics m)
    (generate_summary formatted_issues m)

/-- Embeds `SonarCloudAnalyzer.analyze_code` against the oracle `w`: the
strict call sequence create, source/index, analysis/submit, issues/search,
hotspots/search, measures/component, projects/delete, with the catch-all
turning any raised step into the error-shaped result.  The second component
is the ordered trace of HTTP calls issued.  The fixed 5-second wait and the
temporary-file handling are side effects with no bearing on the result and
are not modelled. -/
def analyze_code (w : SonarWorld) (code : String) (filename : String) :
    SonarResult × List ApiCall :=
  if ¬(w.createStatus = 200 ∨ w.createStatus = 201) then
    (.err "SonarCloud analysis failed"
        ("Failed to create project: " ++ w.createText),
     [.create])
  else if ¬(w.sourceStatus = 200 ∨ w.sourceStatus = 201) then
    (.err "SonarCloud analysis failed"
        ("Failed to run analysis: " ++ w.sourceText),
     [.create, .sourceIndex])
  else if ¬(w.submitStatus = 200 ∨ w.submitStatus = 201 ∨
            w.submitStatus = 202) then
    (.err "SonarCloud analysis failed"
        ("Failed to submit analysis: " ++ w.submitText),
     [.create, .sourceIndex, .analysisSubmit])
  else if ¬(w.issuesStatus = 200) then
    (.err "SonarCloud analysis failed"
        ("Failed to get issues: " ++ w.issuesText),
     [.create, .sourceIndex, .analysisSubmit, .issuesSearch 100])
  else
    (format_results w.issues
        (if w.hotspotsStatus = 200 then w.hotspots else [])
        (if w.metricsStatus = 200 then w.metrics else emptyMetrics),
     [.create, .sourceIndex, .analysisSubmit, .issuesSearch 100,
      .hotspotsSearch 100, .measures, .deleteProject])

end SonarCloudAnalyzer

/-! ### A model of the Python `re` constructs used by the rule table -/

/-- One item of a character class: a literal char, `\s`, or `\w`. -/
inductive CItem where
  | ch (c : Char)
  | space
  | word
deriving DecidableEq

/-- Whether a character class item matches a character (Python `\s` and `\w`
on their ASCII range; the rule-table patterns only meet ASCII input in the
claims settled here). -/
def citemMatch : CItem → Char → Bool
  | .ch c, d => c == d
  | .space, d =>
      d == ' ' || d == '\t' || d == '\n' || d == '\r' || d == '\x0b' ||
        d == '\x0c'
  | .word, d => d.isAlphanum || d == '_'

/-- Regex abstract syntax covering the nine rule-table patterns: literals,
`.`, classes, concatenation, alternation, greedy and lazy `*`, lookarounds
(`look true _ _` is a look-behind), word boundary, and groups. -/
inductive Re where
  | eps
  | chr (c : Char)
  | anyc
  | cls (neg : Bool) (items : List CItem)
  | cat (a b : Re)
  | alt (a b : Re)
  | star (lazy : Bool) (a : Re)
  | look (behind : Bool) (neg : Bool) (a : Re)
  | wordB
  | grp (a : Re)
deriving DecidableEq

/-- The width of a regex when it matches strings of one fixed length only;
`none` otherwise.  Python's `re` computes exactly this to validate
look-behind groups. -/
def fixedWidth : Re → Option Nat
  | .eps => some 0
  | .chr _ => some 1
  | .anyc => some 1
  | .cls _ _ => some 1
  | .cat a b =>
      match fixedWidth a, fixedWidth b with
      | some m, some n => some (m + n)
      | _, _ => none
  | .alt a b =>
      match fixedWidth a, fixedWidth b with
      | some m, some n => if m = n then some m else none
      | _, _ => none
  | .star _ _ => none
  | .look _ _ _ => some 0
  | .wordB => some 0
  | .grp a => fixedWidth a

/-- Python's `re` compile-time check: every look-behind group must have a
fixed width, otherwise `re.compile` (and hence `re.finditer`) raises
`re.error("look-behind requires fixed-width pattern")`. -/
def compileOk : Re → Bool
  | .cat a b => compileOk a && compileOk b
  | .alt a b => compileOk a && compileOk b
  | .star _ a => compileOk a
  | .grp a => compileOk a
  | .look behind _ a =>
      (if behind then (fixedWidth a).isSome else true) && compileOk a
  | _ => true

/-- Whether a character counts as a word character for `\b`. -/
def isWordChar (c : Char) : Bool := c.isAlphanum || c == '_'

/-- Whether position `i` in `cs` is a word boundary. -/
def wordBoundary (cs : List Char) (i : Nat) : Bool :=
  let l := match i with
    | 0 => false
    | j + 1 => match cs[j]? with
      | some c => isWordChar c
      | none => false
  let r := match cs[i]? with
    | some c => isWordChar c
    | none => false
  l != r

/-- Candidate end positions of zero-or-more repetitions of a regex whose end
positions from `j` are `f j`, in backtracking priority order; zero-width
iterations are cut as Python does.  `fuel` bounds the iteration count. -/
def starEnds (f : Nat → List Nat) (lazy : Bool) : Nat → Nat → List Nat
  | i, 0 => [i]
  | i, fuel + 1 =>
    let more :=
      ((f i).filter (fun j => i < j)).flatMap fun j => starEnds f lazy j fuel
    if lazy then i :: more else more ++ [i]

/-- Candidate end positions, in backtracking priority order, of a match of
the regex starting at position `i` of `cs`. -/
def ends : Re → List Char → Nat → List Nat
  | .eps, _, i => [i]
  | .chr c, cs, i =>
      match cs[i]? with
      | some d => if c == d then [i + 1] else []
      | none => []
  | .anyc, cs, i =>
      match cs[i]? with
      | some d => if d == '\n' then [] else [i + 1]
      | none => []
  | .cls neg items, cs, i =>
      match cs[i]? with
      | some d => if (items.any (citemMatch · d)) != neg then [i + 1] else []
      | none => []
  | .cat a b, cs, i => (ends a cs i).flatMap (ends b cs)
  | .alt a b, cs, i => ends a cs i ++ ends b cs i
  | .star lz a, cs, i => starEnds (fun j => ends a cs j) lz i (cs.length + 1)
  | .look behind neg a, cs, i =>
      if behind then
        match fixedWidth a with
        | none => []
        | some wd =>
            let matched := decide (wd ≤ i) && (ends a cs (i - wd)).contains i
            if matched != neg then [i] else []
      else
        let matched := !(ends a cs i).isEmpty
        if matched != neg then [i] else []
  | .wordB, cs, i => if wordBoundary cs i then [i] else []
  | .grp a, cs, i => ends a cs i

/-- Scanning loop of `re.finditer`: successive non-overlapping matches,
advancing past each match (or by one character after an empty match). -/
def finditerAux (r : Re) (cs : List Char) : Nat → Nat → List (Nat × Nat)
  | _, 0 => []
  | i, fuel + 1 =>
    if i ≤ cs.length then
      match (ends r cs i).head? with
      | some j => (i, j) :: finditerAux r cs (if i < j then j else i + 1) fuel
      | none => finditerAux r cs (i + 1) fuel
    else []

/-- All non-overlapping matches (start, end) of a compiled regex in `cs`. -/
def finditer (r : Re) (cs : List Char) : List (Nat × Nat) :=
  finditerAux r cs 0 (cs.length + 1)

/-- A literal string as a regex. -/
def lit (s : String) : Re :=
  s.data.foldr (fun c r => Re.cat (Re.chr c) r) Re.eps

/-- One-or-more repetition (`+`), greedy. -/
def plus1 (a : Re) : Re := Re.cat a (Re.star false a)

/-- `\s` -/
def spaceCls : Re := Re.cls false [CItem.space]

/-- `\w` -/
def wordCls : Re := Re.cls false [CItem.word]

/-- Rule-table entry 1: `import \*` -/
def pat1 : Re := lit "import *"

/-- Rule-table entry 2: `except:(?!\s*#)` -/
def pat2 : Re :=
  Re.cat (lit "except:")
    (Re.look false true (Re.cat (Re.star false spaceCls) (Re.chr '#')))

/-- Rule-table entry 3: `print\(` -/
def pat3 : Re := lit "print("

/-- Rule-table entry 4: `\.get\([^)]*\)(?!\s*\.)` -/
def pat4 : Re :=
  Re.cat (lit ".get(")
    (Re.cat (Re.star false (Re.cls true [CItem.ch ')']))
      (Re.cat (Re.chr ')')
        (Re.look false true
          (Re.cat (Re.star false spaceCls) (Re.chr '.')))))

/-- Rule-table entry 5: `os\.path\.join\(.*?\+.*?\)` -/
def pat5 : Re :=
  Re.cat (lit "os.path.join(")
    (Re.cat (Re.star true Re.anyc)
      (Re.cat (Re.chr '+')
        (Re.cat (Re.star true Re.anyc) (Re.chr ')'))))

/-- Rule-table entry 6: `for\s+\w+\s+in\s+range\(len\((\w+)\)\)` -/
def pat6 : Re :=
  Re.cat (lit "for")
    (Re.cat (plus1 spaceCls)
      (Re.cat (plus1 wordCls)
        (Re.cat (plus1 spaceCls)
          (Re.cat (lit "in")
            (Re.cat (plus1 spaceCls)
              (Re.cat (lit "range(len(")
                (Re.cat (Re.grp (plus1 wordCls)) (lit "))"))))))))

/-- Rule-table entry 7: `(?<!#.*)TODO|FIXME` — its look-behind group `#.*`
has no fixed width, so Python's `re` refuses to compile it. -/
def pat7 : Re :=
  Re.alt
    (Re.cat
      (Re.look true true (Re.cat (Re.chr '#') (Re.star false Re.anyc)))
      (lit "TODO"))
    (lit "FIXME")

/-- Rule-table entry 8: `\bpass\b` -/
def pat8 : Re := Re.cat Re.wordB (Re.cat (lit "pass") Re.wordB)

/-- Rule-table entry 9: `if\s+(\w+)\s*==\s*True|if\s+(\w+)\s*==\s*False` -/
def pat9 : Re :=
  let branch (litw : String) : Re :=
    Re.cat (lit "if")
      (Re.cat (plus1 spaceCls)
        (Re.cat (Re.grp (plus1 wordCls))
          (Re.cat (Re.star false spaceCls)
            (Re.cat (lit "==")
              (Re.cat (Re.star false spaceCls) (lit litw))))))
  Re.alt (branch "True") (branch "False")

namespace CodeQualityAnalyzer

/-- The `self.code_smells` rule table, in the source's (insertion) order. -/
def code_smells : List (Re × String) :=
  [(pat1, "Avoid wildcard imports as they can lead to namespace pollution"),
   (pat2, "Avoid bare except clauses; catch specific exceptions"),
   (pat3,
    "Consider using logging instead of print statements in production code"),
   (pat4, "Dictionary get() calls should provide a default value"),
   (pat5,
    "Use os.path.join for path concatenation instead of string concatenation"),
   (pat6, "Consider using enumerate() instead of range(len())"),
   (pat7, "Resolve TODO/FIXME comments before finalizing code"),
   (pat8, "Empty pass statements might indicate incomplete code"),
   (pat9, "Redundant comparison with boolean literals")]

/-- The loop body of `_check_local_patterns`: for each table entry in order,
compile the pattern (raising `re.error` on the invalid look-behind), then
turn each match into a warning Finding whose line is one plus the number of
newlines before the match start. -/
def runPatterns (cs : List Char) : List (Re × String) → Except String (List Finding)
  | [] => Except.ok []
  | (p, msg) :: rest =>
    match compileOk p, runPatterns cs rest with
    | false, _ => Except.error "look-behind requires fixed-width pattern"
    | true, Except.error e => Except.error e
    | true, Except.ok more =>
        Except.ok
          (((finditer p cs).map fun mt =>
            { line := (cs.take mt.1).count '\n' + 1
              message := msg
              severity := "warning"
              type := "code_smell"
              rule := none : Finding }) ++ more)

/-- Embeds `CodeQualityAnalyzer._check_local_patterns`. -/
def check_local_patterns (code : String) : Except String (List Finding) :=
  runPatterns code.data code_smells

end CodeQualityAnalyzer

/-! ### A model of the Python AST walked by `_check_ast_patterns` -/

/-- A Python AST node, abstracted to what `_check_ast_patterns` inspects: a
`FunctionDef` node carries its name, line number, the length of
`node.args.args`, and its body statements; every other node kind only
contributes its child nodes to the walk. -/
inductive PyNode where
  | funcDef (name : String) (lineno : Nat) (argCount : Nat) (body : List PyNode)
  | other (children : List PyNode)

/-- The child nodes yielded by `ast.iter_child_nodes`. -/
def nodeChildren : PyNode → List PyNode
  | .funcDef _ _ _ body => body
  | .other cs => cs

mutual

/-- The number of nodes in a tree; termination measure of the walks. -/
def nodeSize : PyNode → Nat
  | .funcDef _ _ _ body => 1 + nodesSize body
  | .other cs => 1 + nodesSize cs

/-- The number of nodes in a forest. -/
def nodesSize : List PyNode → Nat
  | [] => 0
  | n :: ns => nodeSize n + nodesSize ns

end

/-- Sum of `nodeSize` over a node list. -/
def sizeL (l : List PyNode) : Nat := nodesSize l

theorem sizeL_cons (n : PyNode) (l : List PyNode) :
    sizeL (n :: l) = nodeSize n + sizeL l := rfl

theorem sizeL_append (a b : List PyNode) :
    sizeL (a ++ b) = sizeL a + sizeL b := by
  induction a with
  | nil => simp [sizeL, nodesSize]
  | cons n l ih =>
    simp only [List.cons_append, sizeL_cons, ih, Nat.add_assoc]

theorem sizeL_children_lt (n : PyNode) : sizeL (nodeChildren n) < nodeSize n := by
  cases n with
  | funcDef name lineno argCount body =>
    simp [nodeChildren, nodeSize, sizeL]
  | other cs =>
    simp [nodeChildren, nodeSize, sizeL]

/-- Embeds `ast.walk`: breadth-first traversal using a FIFO queue, children
enqueued in order. -/
def walkBFS : List PyNode → List PyNode
  | [] => []
  | n :: rest => n :: walkBFS (rest ++ nodeChildren n)
termination_by q => sizeL q
decreasing_by
  simp only [sizeL_append, sizeL_cons]
  have h := sizeL_children_lt n
  omega

/-- Modelled from the spec: depth-first, source-order visitation ("Visitation
order determines Finding order (depth-first, source order)"), phrased as a
stack-based walk so that it traverses the same nodes as `walkBFS`. -/
def walkDFSstack : List PyNode → List PyNode
  | [] => []
  | n :: rest => n :: walkDFSstack (nodeChildren n ++ rest)
termination_by q => sizeL q
decreasing_by
  simp only [sizeL_append, sizeL_cons]
  have h := sizeL_children_lt n
  omega

namespace CodeQualityAnalyzer

/-- The "too long" Finding emitted by `_check_ast_patterns`. -/
def mkTooLong (name : String) (lineno n : Nat) : Finding :=
  { line := lineno
    message := "Function '" ++ name ++ "' is too long (" ++ toString n ++
      " lines). Consider refactoring."
    severity := "warning"
    type := "complexity"
    rule := none }

/-- The "too many parameters" Finding emitted by `_check_ast_patterns`. -/
def mkTooMany (name : String) (lineno n : Nat) : Finding :=
  { line := lineno
    message := "Function '" ++ name ++ "' has too many parameters (" ++
      toString n ++ "). Consider refactoring."
    severity := "warning"
    type := "complexity"
    rule := none }

/-- The findings one visited node contributes: a `FunctionDef` yields the
"too long" check (body statement count over 30) then the "too many
parameters" check (over 5); any other node yields nothing. -/
def funcFindings : PyNode → List Finding
  | .funcDef name lineno argCount body =>
      (if body.length > 30 then [mkTooLong name lineno body.length] else []) ++
      (if argCount > 5 then [mkTooMany name lineno argCount] else [])
  | .other _ => []

/-- The outcome of `ast.parse`, which is external to the repository: either a
tree or a `SyntaxError` with its optional line number and its `str(e)`
rendering. -/
structure SynError where
  lineno : Option Nat
  msg : String
deriving DecidableEq

/-- Embeds `CodeQualityAnalyzer._check_ast_patterns`, taking the parse
outcome as input: on failure exactly one syntax Finding, on success the
findings of every walked node in `ast.walk` (breadth-first) order. -/
def check_ast_patterns (parseResult : Except SynError PyNode) : List Finding :=
  match parseResult with
  | .error e =>
      [{ line := e.lineno.getD 0
         message := "Syntax error: " ++ e.msg
         severity := "error"
         type := "syntax"
         rule := none }]
  | .ok tree => (walkBFS [tree]).flatMap funcFindings

/-- Modelled from the spec: the Structural Checker's findings under the
spec's claimed depth-first, source-order visitation, for comparison with
`check_ast_patterns`. -/
def check_ast_dfs_spec (tree : PyNode) : List Finding :=
  (walkDFSstack [tree]).flatMap funcFindings

/-- Embeds `len(code.splitlines())` for `\n`-separated text (the further
universal-newline separators Python recognizes do not occur in any claim). -/
def splitlinesCount (s : String) : Nat :=
  if s = "" then 0
  else s.data.count '\n' + (if s.data.getLast? = some '\n' then 0 else 1)

/-- The metrics block of a local analysis result. -/
structure LocalMetrics where
  lines_of_code : Nat
  complexity_score : Nat
  issue_count : Nat
deriving DecidableEq, Repr

/-- The success shape returned by `CodeQualityAnalyzer.analyze_code`. -/
structure LocalResult where
  issues : List Finding
  metrics : LocalMetrics
  summary : String
deriving DecidableEq, Repr

/-- Embeds `CodeQualityAnalyzer._generate_summary`: issue density per 100
lines classified into three quality tiers (Python float division modelled as
exact rational division). -/
def generate_summary (issues : List Finding) (loc : Nat)
    (complexity : Nat) : String :=
  if issues.isEmpty then
    "No issues detected. Code appears to follow good practices."
  else
    let issue_count := issues.length
    let issue_density : ℚ := (issue_count : ℚ) / ((max 1 loc : Nat) : ℚ) * 100
    let quality :=
      if issue_density < 2 then "good"
      else if issue_density < 5 then "acceptable"
      else "needs improvement"
    "Found " ++ toString issue_count ++ " issues in " ++ toString loc ++
      " lines of code. Overall quality is " ++ quality ++ "."

/-- Embeds `CodeQualityAnalyzer.analyze_code`, the local analysis entry
point, taking the external parse outcome as input.  An uncaught exception
from the pattern phase propagates as `Except.error`. -/
def analyze_code (parseResult : Except SynError PyNode) (code : String)
    (filename : String) : Except String LocalResult :=
  let is_python := filename.endsWith ".py"
  match check_local_patterns code with
  | Except.error e => Except.error e
  | Except.ok patternIssues =>
    let issues :=
      if is_python then patternIssues ++ check_ast_patterns parseResult
      else patternIssues
    let loc := splitlinesCount code
    let complexity_score := min 10 (max 1 (issues.length / 5 + 1))
    Except.ok
      { issues := issues
        metrics :=
          { lines_of_code := loc
            complexity_score := complexity_score
            issue_count := issues.length }
        summary := generate_summary issues loc complexity_score }

end CodeQualityAnalyzer

/-! ### The generative review adapter -/

/-- Python truthiness of the optional API-key attribute: `None` and the empty
string are falsy. -/
def pyTruthy : Option String → Bool
  | none => false
  | some s => s != ""

/-- The one network call `analyze_with_ai` can make. -/
inductive AiCall where
  | post
deriving DecidableEq, Repr

/-- Oracle for the generative endpoint: whether the transport raises, the
HTTP status, the response body, the first candidate's text, and the outcome
of the JSON-extraction step (`some j` when the two-pattern regex search found
text that `json.loads` accepted).  The extraction regex itself is not
re-modelled: no claim depends on it. -/
structure AiWorld where
  raises : Bool
  exnMsg : String
  status : Nat
  bodyText : String
  candidateText : String
  extracted : Option String
deriving DecidableEq, Repr

/-- Result shapes of `analyze_with_ai`: the key-missing error object (a
single `error` field), the transport / HTTP error objects (`error` plus
`message`), a parsed JSON payload, or the raw-text fallback object. -/
inductive AiResult where
  | err (error : String) (message : Option String)
  | parsed (payload : String)
  | fallback (raw_response : String)
deriving DecidableEq, Repr

namespace CodeQualityAnalyzer

/-- Embeds `CodeQualityAnalyzer.analyze_with_ai` against the oracle `w`,
also returning the trace of network calls.  The guard precedes everything:
with a falsy key the error object is returned before any call.  The prompt
string is built from `code` and the filename's extension and only sent to
the endpoint, so its text is not modelled. -/
def analyze_with_ai (gemini_api_key : Option String) (w : AiWorld)
    (code : String) (filename : String) : AiResult × List AiCall :=
  if pyTruthy gemini_api_key = false then
    (.err "API key is required for AI-powered analysis" none, [])
  else if w.raises then
    (.err "Failed to analyze with AI" (some w.exnMsg), [.post])
  else if w.status = 200 then
    (match w.extracted with
     | some j => .parsed j
     | none => .fallback w.candidateText,
     [.post])
  else
    (.err ("API error: " ++ toString w.status) (some w.bodyText), [.post])

end CodeQualityAnalyzer

/-! ### Concrete inputs used by counterexamples and witnesses -/

/-- An input with exactly one wildcard-import occurrence, on line 3, and no
other rule-table match. -/
def c2Input : String := "import os\nimport sys\nfrom math import *\n"

/-- A module with a nested function (`inner`, 6 parameters, inside `outer`)
followed by a top-level function (`second`, 6 parameters): depth-first
source order visits `inner` before `second`, breadth-first visits `second`
first. -/
def c5Tree : PyNode :=
  PyNode.other
    [PyNode.funcDef "outer" 1 0
      [PyNode.funcDef "inner" 2 6 [PyNode.other []]],
     PyNode.funcDef "second" 5 6 [PyNode.other []]]

/-- A sample raw issue. -/
def sampleIssue : RawIssue :=
  { line := some 4
    message := some "Remove this unused variable."
    severity := some "MAJOR"
    type := some "CODE_SMELL"
    rule := some "python:S1481" }

/-- A sample raw hotspot. -/
def sampleHotspot : RawHotspot :=
  { line := some 9
    message := some "Make sure this use of eval is safe."
    ruleKey := some "python:S1523" }

/-- A run in which project creation succeeds but the issues fetch fails. -/
def w3cex : SonarWorld :=
  { createStatus := 200, createText := ""
    sourceStatus := 200, sourceText := ""
    submitStatus := 202, submitText := ""
    issuesStatus := 500, issuesText := "internal error"
    issues := []
    hotspotsStatus := 200, hotspots := []
    metricsStatus := 200, metrics := emptyMetrics
    deleteStatus := 200 }

/-- A run whose issues fetch fails (for the C4 witness). -/
def w4a : SonarWorld :=
  { createStatus := 200, createText := ""
    sourceStatus := 200, sourceText := ""
    submitStatus := 200, submitText := ""
    issuesStatus := 404, issuesText := "not found"
    issues := []
    hotspotsStatus := 200, hotspots := []
    metricsStatus := 200, metrics := emptyMetrics
    deleteStatus := 200 }

/-- A run whose issues fetch succeeds while the hotspot and metric fetches
fail (for the C4 witness). -/
def w4b : SonarWorld :=
  { createStatus := 201, createText := ""
    sourceStatus := 200, sourceText := ""
    submitStatus := 200, submitText := ""
    issuesStatus := 200, issuesText := ""
    issues := [sampleIssue]
    hotspotsStatus := 500, hotspots := [sampleHotspot]
    metricsStatus := 503, metrics := emptyMetrics
    deleteStatus := 200 }

/-- Metrics for the C10 witness run. -/
def m10 : SonarMetrics :=
  { ncloc := some 12, complexity := some 3, bugs := some 1
    vulnerabilities := some 2, code_smells := some 4
    security_hotspots := some 1, duplicated_lines_density := some 5
    coverage := none }

/-- A fully successful run (for the C10 witness). -/
def w10 : SonarWorld :=
  { createStatus := 200, createText := ""
    sourceStatus := 200, sourceText := ""
    submitStatus := 200, submitText := ""
    issuesStatus := 200, issuesText := ""
    issues := [sampleIssue]
    hotspotsStatus := 200, hotspots := [sampleHotspot]
    metricsStatus := 200, metrics := m10
    deleteStatus := 200 }

/-- Metrics with one bug and one vulnerability (C8 witness). -/
def m8a : SonarMetrics :=
  { ncloc := some 3, complexity := none, bugs := some 1
    vulnerabilities := some 1, code_smells := none
    security_hotspots := none, duplicated_lines_density := none
    coverage := none }

/-- Metrics with two bugs and two vulnerabilities (C8 witness). -/
def m8b : SonarMetrics :=
  { ncloc := some 7, complexity := none, bugs := some 2
    vulnerabilities := some 2, code_smells := none
    security_hotspots := none, duplicated_lines_density := none
    coverage := none }

/-- Metrics with zero lines of code but plenty of other signal
(C8 witness for the early return). -/
def m8z : SonarMetrics :=
  { ncloc := some 0, complexity := some 8, bugs := some 5
    vulnerabilities := some 2, code_smells := some 9
    security_hotspots := some 3, duplicated_lines_density := some 50
    coverage := some 1 }

/-! ### Helper lemmas -/

theorem compileOk_pat1 : compileOk pat1 = true := rfl

theorem compileOk_pat2 : compileOk pat2 = true := rfl

theorem compileOk_pat3 : compileOk pat3 = true := rfl

theorem compileOk_pat4 : compileOk pat4 = true := rfl

theorem compileOk_pat5 : compileOk pat5 = true := rfl

theorem compileOk_pat6 : compileOk pat6 = true := rfl

/-- The TODO/FIXME pattern's look-behind group `#.*` has no fixed width, so
the modelled `re` compile check rejects it. -/
theorem compileOk_pat7 : compileOk pat7 = false := rfl

/-- Iterating the rule table reaches the invalid seventh pattern on every
input, so `_check_local_patterns` raises `re.error` unconditionally. -/
theorem runPatterns_always_err (cs : List Char) :
    CodeQualityAnalyzer.runPatterns cs CodeQualityAnalyzer.code_smells =
      Except.error "look-behind requires fixed-width pattern" := by
  simp only [CodeQualityAnalyzer.code_smells, CodeQualityAnalyzer.runPatterns,
    compileOk_pat1, compileOk_pat2, compileOk_pat3, compileOk_pat4,
    compileOk_pat5, compileOk_pat6, compileOk_pat7]

/-- A stack-based depth-first walk splits over stack concatenation. -/
theorem walkDFSstack_append :
    ∀ a b : List PyNode,
      walkDFSstack (a ++ b) = walkDFSstack a ++ walkDFSstack b := by
  intro a
  induction a using walkDFSstack.induct with
  | case1 => intro b; simp [walkDFSstack]
  | case2 n rest ih =>
    intro b
    rw [List.cons_append, walkDFSstack, ← List.append_assoc, ih,
      walkDFSstack, List.cons_append]

/-- `ast.walk` (breadth-first) visits exactly the nodes the depth-first,
source-order walk visits: the two traversals are permutations of each
other. -/
theorem walkBFS_perm_walkDFSstack :
    ∀ q : List PyNode, (walkBFS q).Perm (walkDFSstack q) := by
  intro q
  induction q using walkBFS.induct with
  | case1 => rw [walkBFS, walkDFSstack]
  | case2 n rest ih =>
    rw [walkBFS, walkDFSstack, walkDFSstack_append (nodeChildren n) rest]
    refine List.Perm.cons n ?_
    have ih2 : (walkBFS (rest ++ nodeChildren n)).Perm
        (walkDFSstack rest ++ walkDFSstack (nodeChildren n)) := by
      rw [← walkDFSstack_append]; exact ih
    exact ih2.trans List.perm_append_comm

/-- Unfolding of `_format_results` into its three components. -/
theorem format_results_def (issues : List RawIssue) (hotspots : List RawHotspot)
    (m : SonarMetrics) :
    SonarCloudAnalyzer.format_results issues hotspots m =
      SonarResult.ok
        (issues.map SonarCloudAnalyzer.issueToFinding ++
          hotspots.map SonarCloudAnalyzer.hotspotToFinding)
        (SonarCloudAnalyzer.formatMetrics m)
        (SonarCloudAnalyzer.generate_summary
          (issues.map SonarCloudAnalyzer.issueToFinding ++
            hotspots.map SonarCloudAnalyzer.hotspotToFinding) m) := rfl

/-! ### Claim theorems -/

/-- C1: the claim states that the local analysis entry point
`CodeQualityAnalyzer.analyze_code` never raises and always returns a
success-shaped result.  In the code the seventh rule-table pattern,
`(?<!#.*)TODO|FIXME`, carries a variable-width look-behind that Python's
`re` refuses to compile, so the pattern loop raises `re.error` on every
input and the entry point never returns a success shape. -/
theorem c1_analyze_code_always_raises
    (parseResult : Except CodeQualityAnalyzer.SynError PyNode)
    (code filename : String) :
    CodeQualityAnalyzer.analyze_code parseResult code filename =
      Except.error "look-behind requires fixed-width pattern" := by
  simp only [CodeQualityAnalyzer.analyze_code,
    CodeQualityAnalyzer.check_local_patterns, runPatterns_always_err]

/-- C2: the claim states that on an input whose only rule-table match is a
single wildcard import on line 3, the Pattern Checker returns exactly one
warning Finding at line 3.  The input `c2Input` does contain exactly one
wildcard-import match, whose computed line is 3 (first conjunct), yet the
checker raises `re.error` from the seventh pattern instead of returning any
findings (second conjunct). -/
theorem c2_pattern_checker_raises_on_wildcard_input :
    ((finditer pat1 c2Input.data).map
        (fun mt => (c2Input.data.take mt.1).count '\n' + 1) = [3])
    ∧ CodeQualityAnalyzer.check_local_patterns c2Input =
        Except.error "look-behind requires fixed-width pattern" :=
  ⟨by decide, runPatterns_always_err c2Input.data⟩

/-- C6: on parse failure the Structural Checker returns exactly one Finding
with severity error, type syntax, line the reported error line (0 when
absent), and message "Syntax error: " followed by the parser's message, and
nothing else. -/
theorem c6_parse_failure_single_syntax_finding
    (e : CodeQualityAnalyzer.SynError) :
    CodeQualityAnalyzer.check_ast_patterns (Except.error e) =
      [{ line := e.lineno.getD 0
         message := "Syntax error: " ++ e.msg
         severity := "error"
         type := "syntax"
         rule := none }] := rfl

/-- C9: with no API credential configured, `analyze_with_ai` returns the
explicit error object immediately and issues zero network calls, whatever
the transport oracle would have answered. -/
theorem c9_ai_requires_key (w : AiWorld) (code filename : String) :
    CodeQualityAnalyzer.analyze_with_ai none w code filename =
      (AiResult.err "API key is required for AI-powered analysis" none,
        []) := rfl

/-- C5 counterexample: the claim's "depth-first source-order" finding order
is false on `c5Tree`.  The checker (which walks with `ast.walk`,
breadth-first) reports `second` before the nested `inner`, while the
claimed depth-first source order reports `inner` first. -/
theorem c5_order_cex :
    CodeQualityAnalyzer.check_ast_patterns (Except.ok c5Tree) =
        [CodeQualityAnalyzer.mkTooMany "second" 5 6,
         CodeQualityAnalyzer.mkTooMany "inner" 2 6]
    ∧ CodeQualityAnalyzer.check_ast_dfs_spec c5Tree =
        [CodeQualityAnalyzer.mkTooMany "inner" 2 6,
         CodeQualityAnalyzer.mkTooMany "second" 5 6]
    ∧ CodeQualityAnalyzer.check_ast_patterns (Except.ok c5Tree) ≠
        CodeQualityAnalyzer.check_ast_dfs_spec c5Tree := by
  have h1 : CodeQualityAnalyzer.check_ast_patterns (Except.ok c5Tree) =
      [CodeQualityAnalyzer.mkTooMany "second" 5 6,
       CodeQualityAnalyzer.mkTooMany "inner" 2 6] := by
    simp [CodeQualityAnalyzer.check_ast_patterns, c5Tree, walkBFS,
      nodeChildren, CodeQualityAnalyzer.funcFindings]
  have h2 : CodeQualityAnalyzer.check_ast_dfs_spec c5Tree =
      [CodeQualityAnalyzer.mkTooMany "inner" 2 6,
       CodeQualityAnalyzer.mkTooMany "second" 5 6] := by
    simp [CodeQualityAnalyzer.check_ast_dfs_spec, c5Tree, walkDFSstack,
      nodeChildren, CodeQualityAnalyzer.funcFindings]
  refine ⟨h1, h2, ?_⟩
  rw [h1, h2]
  decide

/-- C5 amended: on parse success the Structural Checker emits, per visited
function-definition node, a "too long" warning exactly when its body
statement count exceeds 30 and a "too many parameters" warning exactly
when its parameter count exceeds 5 (in that order for one function), and
the order of findings across functions follows the breadth-first `ast.walk`
visitation, which traverses exactly the nodes of the depth-first
source-order walk (as a permutation), not in its order. -/
theorem c5_structural_checker_bfs (tree : PyNode) :
    CodeQualityAnalyzer.check_ast_patterns (Except.ok tree) =
        (walkBFS [tree]).flatMap CodeQualityAnalyzer.funcFindings
    ∧ (walkBFS [tree]).Perm (walkDFSstack [tree])
    ∧ (∀ (name : String) (lineno argCount : Nat) (body : List PyNode),
        CodeQualityAnalyzer.funcFindings
            (PyNode.funcDef name lineno argCount body) =
          (if body.length > 30 then
            [CodeQualityAnalyzer.mkTooLong name lineno body.length]
           else []) ++
          (if argCount > 5 then
            [CodeQualityAnalyzer.mkTooMany name lineno argCount]
           else []))
    ∧ (∀ cs, CodeQualityAnalyzer.funcFindings (PyNode.other cs) = []) :=
  ⟨rfl, walkBFS_perm_walkDFSstack [tree],
   fun _ _ _ _ => rfl, fun _ => rfl⟩

/-- C7: remote-result normalization maps each issue to a Finding with type
the reported type lower-cased (default "CODE_SMELL", whose lower-casing is
"code_smell") and severity the reported severity lower-cased; maps each
hotspot to a warning security Finding with the "Security hotspot: " prefix
and the hotspot's rule key; and outputs all issue-derived findings before
all hotspot-derived ones. -/
theorem c7_format_results_normalization
    (issues : List RawIssue) (hotspots : List RawHotspot) (m : SonarMetrics) :
    (∃ fm s,
      SonarCloudAnalyzer.format_results issues hotspots m =
        SonarResult.ok
          (issues.map SonarCloudAnalyzer.issueToFinding ++
            hotspots.map SonarCloudAnalyzer.hotspotToFinding) fm s)
    ∧ (∀ i : RawIssue, SonarCloudAnalyzer.issueToFinding i =
        { line := i.line.getD 0
          message := i.message.getD ""
          severity := pyLower (i.severity.getD "")
          type := pyLower (i.type.getD "CODE_SMELL")
          rule := some (i.rule.getD "") })
    ∧ (∀ h : RawHotspot, SonarCloudAnalyzer.hotspotToFinding h =
        { line := h.line.getD 0
          message := "Security hotspot: " ++ h.message.getD ""
          severity := "warning"
          type := "security"
          rule := some (h.ruleKey.getD "") })
    ∧ pyLower "CODE_SMELL" = "code_smell" :=
  ⟨⟨SonarCloudAnalyzer.formatMetrics m,
    SonarCloudAnalyzer.generate_summary
      (issues.map SonarCloudAnalyzer.issueToFinding ++
        hotspots.map SonarCloudAnalyzer.hotspotToFinding) m,
    format_results_def issues hotspots m⟩,
   fun _ => rfl, fun _ => rfl, by decide⟩

/-- C3 counterexample: in run `w3cex` project creation succeeds (status
200), yet because the issues fetch fails the call returns without ever
attempting the project deletion — refuting "deletion is attempted before
the call returns regardless of whether the rest of the call succeeds or
fails". -/
theorem c3_delete_skipped_cex :
    w3cex.createStatus = 200
    ∧ ApiCall.deleteProject ∉
        (SonarCloudAnalyzer.analyze_code w3cex "x = 1" "a.py").2 := by
  decide

/-- C3 amended: the delete call is attempted exactly when creation, source
submission, analysis submission and the issues fetch all succeed; on any
failure among those the project is left undeleted; and when deletion is
attempted its response is ignored — the call's outcome never depends on the
delete status, so delete failures are swallowed and never surfaced. -/
theorem c3_delete_lifecycle (w : SonarWorld) (code filename : String) :
    (ApiCall.deleteProject ∈
        (SonarCloudAnalyzer.analyze_code w code filename).2 ↔
      ((w.createStatus = 200 ∨ w.createStatus = 201) ∧
       (w.sourceStatus = 200 ∨ w.sourceStatus = 201) ∧
       (w.submitStatus = 200 ∨ w.submitStatus = 201 ∨
         w.submitStatus = 202) ∧
       w.issuesStatus = 200))
    ∧ (∀ s : Nat,
        SonarCloudAnalyzer.analyze_code { w with deleteStatus := s }
            code filename =
          SonarCloudAnalyzer.analyze_code w code filename) := by
  constructor
  · unfold SonarCloudAnalyzer.analyze_code
    split_ifs with h1 h2 h3 h4 <;> simp_all
  · intro s
    cases w
    rfl

/-- C4: in the result-fetch step, a failed issues fetch makes the whole
call error-shaped; a failed hotspot fetch still yields a success-shaped
result whose findings are only issue-derived; a failed metrics fetch still
yields a success-shaped result built from the empty metric map. -/
theorem c4_fetch_failure_tolerance (w : SonarWorld) (code filename : String)
    (hc : w.createStatus = 200 ∨ w.createStatus = 201)
    (hs : w.sourceStatus = 200 ∨ w.sourceStatus = 201)
    (ha : w.submitStatus = 200 ∨ w.submitStatus = 201 ∨
      w.submitStatus = 202) :
    (w.issuesStatus ≠ 200 →
      (SonarCloudAnalyzer.analyze_code w code filename).1 =
        SonarResult.err "SonarCloud analysis failed"
          ("Failed to get issues: " ++ w.issuesText))
    ∧ (w.issuesStatus = 200 → w.hotspotsStatus ≠ 200 →
        ∃ fm s, (SonarCloudAnalyzer.analyze_code w code filename).1 =
          SonarResult.ok
            (w.issues.map SonarCloudAnalyzer.issueToFinding) fm s)
    ∧ (w.issuesStatus = 200 → w.metricsStatus ≠ 200 →
        ∃ iss s, (SonarCloudAnalyzer.analyze_code w code filename).1 =
          SonarResult.ok iss
            (SonarCloudAnalyzer.formatMetrics emptyMetrics) s) := by
  unfold SonarCloudAnalyzer.analyze_code
  rw [if_neg (not_not_intro hc), if_neg (not_not_intro hs),
    if_neg (not_not_intro ha)]
  refine ⟨fun hi => by rw [if_pos hi], fun hi hh => ?_, fun hi hm => ?_⟩
  · rw [if_neg (not_not_intro hi), if_neg hh, format_results_def]
    simp only [List.map_nil, List.append_nil]
    exact ⟨_, _, rfl⟩
  · rw [if_neg (not_not_intro hi), if_neg hm, format_results_def]
    exact ⟨_, _, rfl⟩

/-- Witness for C4 at the concrete runs `w4a` (issues fetch fails) and
`w4b` (issues fetch succeeds, hotspot and metric fetches fail). -/
theorem c4_fetch_failure_tolerance_w :
    ((SonarCloudAnalyzer.analyze_code w4a "x = 1" "a.py").1 =
      SonarResult.err "SonarCloud analysis failed"
        ("Failed to get issues: " ++ w4a.issuesText))
    ∧ (∃ fm s, (SonarCloudAnalyzer.analyze_code w4b "x = 1" "a.py").1 =
        SonarResult.ok
          (w4b.issues.map SonarCloudAnalyzer.issueToFinding) fm s)
    ∧ (∃ iss s, (SonarCloudAnalyzer.analyze_code w4b "x = 1" "a.py").1 =
        SonarResult.ok iss
          (SonarCloudAnalyzer.formatMetrics emptyMetrics) s) :=
  ⟨(c4_fetch_failure_tolerance w4a "x = 1" "a.py" (Or.inl rfl) (Or.inl rfl)
      (Or.inl rfl)).1 (by decide),
   (c4_fetch_failure_tolerance w4b "x = 1" "a.py" (Or.inr rfl) (Or.inl rfl)
      (Or.inl rfl)).2.1 rfl (by decide),
   (c4_fetch_failure_tolerance w4b "x = 1" "a.py" (Or.inr rfl) (Or.inl rfl)
      (Or.inl rfl)).2.2 rfl (by decide)⟩

/-- C8: the remote summary returns the fixed "No code detected" sentence
whenever the lines-of-code metric is 0, regardless of the other metrics and
of the issue list; and the phrase list collects "n potential bug(s)" when
bugs are positive (singular exactly at one) and "n security issue(s)" when
vulnerabilities are positive, with number agreement on both noun forms
(rendering "securities issues" in the plural, as the code inflects both
nouns). -/
theorem c8_remote_summary (issues : List Finding) (m : SonarMetrics) :
    (m.ncloc.getD 0 = 0 →
      SonarCloudAnalyzer.generate_summary issues m =
        "No code detected for analysis.")
    ∧ (m.bugs.getD 0 = 1 →
        "1 potential bug" ∈ SonarCloudAnalyzer.quality_phrases m)
    ∧ (1 < m.bugs.getD 0 →
        toString (m.bugs.getD 0) ++ " potential bugs" ∈
          SonarCloudAnalyzer.quality_phrases m)
    ∧ (m.vulnerabilities.getD 0 = 1 →
        "1 security issue" ∈ SonarCloudAnalyzer.quality_phrases m)
    ∧ (1 < m.vulnerabilities.getD 0 →
        toString (m.vulnerabilities.getD 0) ++ " securities issues" ∈
          SonarCloudAnalyzer.quality_phrases m) := by
  refine ⟨fun h => ?_, fun h => ?_, fun h => ?_, fun h => ?_, fun h => ?_⟩
  · simp [SonarCloudAnalyzer.generate_summary, h]
  · simp only [SonarCloudAnalyzer.quality_phrases, h, List.mem_append]
    exact Or.inl (Or.inl (Or.inl (by decide)))
  · have h0 : m.bugs.getD 0 > 0 := by omega
    simp only [SonarCloudAnalyzer.quality_phrases, List.mem_append]
    refine Or.inl (Or.inl (Or.inl ?_))
    rw [if_pos h0, if_pos h, List.mem_singleton, String.append_assoc]
    rfl
  · simp only [SonarCloudAnalyzer.quality_phrases, h, List.mem_append]
    exact Or.inl (Or.inl (Or.inr (by decide)))
  · have h0 : m.vulnerabilities.getD 0 > 0 := by omega
    simp only [SonarCloudAnalyzer.quality_phrases, List.mem_append]
    refine Or.inl (Or.inl (Or.inr ?_))
    rw [if_pos h0, if_pos h, if_pos h, List.mem_singleton,
      String.append_assoc, String.append_assoc, String.append_assoc]
    rfl

/-- Witness for C8 at the concrete metric maps `m8a` (one bug, one
vulnerability), `m8b` (two of each), and `m8z` (zero lines of code with
every other metric large). -/
theorem c8_remote_summary_w :
    "1 potential bug" ∈ SonarCloudAnalyzer.quality_phrases m8a
    ∧ "1 security issue" ∈ SonarCloudAnalyzer.quality_phrases m8a
    ∧ "2 potential bugs" ∈ SonarCloudAnalyzer.quality_phrases m8b
    ∧ "2 securities issues" ∈ SonarCloudAnalyzer.quality_phrases m8b
    ∧ SonarCloudAnalyzer.generate_summary [] m8z =
        "No code detected for analysis." :=
  ⟨(c8_remote_summary [] m8a).2.1 rfl,
   (c8_remote_summary [] m8a).2.2.2.1 rfl,
   (c8_remote_summary [] m8b).2.2.1 (by decide),
   (c8_remote_summary [] m8b).2.2.2.2 (by decide),
   (c8_remote_summary [] m8z).1 rfl⟩

/-- The trace of one remote analysis is one of five prefixes of the full
call sequence. -/
theorem analyze_code_trace (w : SonarWorld) (code filename : String) :
    (SonarCloudAnalyzer.analyze_code w code filename).2 = [.create]
    ∨ (SonarCloudAnalyzer.analyze_code w code filename).2 =
        [.create, .sourceIndex]
    ∨ (SonarCloudAnalyzer.analyze_code w code filename).2 =
        [.create, .sourceIndex, .analysisSubmit]
    ∨ (SonarCloudAnalyzer.analyze_code w code filename).2 =
        [.create, .sourceIndex, .analysisSubmit, .issuesSearch 100]
    ∨ (SonarCloudAnalyzer.analyze_code w code filename).2 =
        [.create, .sourceIndex, .analysisSubmit, .issuesSearch 100,
         .hotspotsSearch 100, .measures, .deleteProject] := by
  unfold SonarCloudAnalyzer.analyze_code
  split_ifs <;> simp

/-- A success-shaped remote result's issue list is the issue-derived
findings followed by the hotspot-derived findings of the (possibly emptied)
hotspot fetch. -/
theorem analyze_code_ok_issues (w : SonarWorld) (code filename : String)
    (iss : List Finding) (fm : FormattedMetrics) (s : String) :
    (SonarCloudAnalyzer.analyze_code w code filename).1 =
      SonarResult.ok iss fm s →
    iss = w.issues.map SonarCloudAnalyzer.issueToFinding ++
      (if w.hotspotsStatus = 200 then w.hotspots else []).map
        SonarCloudAnalyzer.hotspotToFinding := by
  unfold SonarCloudAnalyzer.analyze_code
  split_ifs <;> intro h <;> simp_all [format_results_def]

/-- C10: one remote analysis issues at most one issues-search and at most
one hotspots-search request, both with page size 100 and with no other page
size ever requested (no pagination); hence, whenever the server honors the
requested page size (returns at most 100 rows per fetch), every
success-shaped result holds at most 100 issue-derived and at most 100
hotspot-derived findings. -/
theorem c10_single_page_bound (w : SonarWorld) (code filename : String) :
    ((SonarCloudAnalyzer.analyze_code w code filename).2.count
        (ApiCall.issuesSearch 100) ≤ 1
     ∧ (SonarCloudAnalyzer.analyze_code w code filename).2.count
        (ApiCall.hotspotsSearch 100) ≤ 1
     ∧ (∀ ps, ApiCall.issuesSearch ps ∈
          (SonarCloudAnalyzer.analyze_code w code filename).2 → ps = 100)
     ∧ (∀ ps, ApiCall.hotspotsSearch ps ∈
          (SonarCloudAnalyzer.analyze_code w code filename).2 → ps = 100))
    ∧ (w.issues.length ≤ 100 → w.hotspots.length ≤ 100 →
        ∀ iss fm s,
          (SonarCloudAnalyzer.analyze_code w code filename).1 =
            SonarResult.ok iss fm s →
          ∃ hs : List RawHotspot,
            iss = w.issues.map SonarCloudAnalyzer.issueToFinding ++
                hs.map SonarCloudAnalyzer.hotspotToFinding
            ∧ (w.issues.map SonarCloudAnalyzer.issueToFinding).length ≤ 100
            ∧ (hs.map SonarCloudAnalyzer.hotspotToFinding).length ≤ 100) := by
  constructor
  · obtain h | h | h | h | h := analyze_code_trace w code filename <;>
      rw [h] <;>
      exact ⟨by decide, by decide, fun ps hp => by simp_all,
        fun ps hp => by simp_all⟩
  · intro hl1 hl2 iss fm s heq
    refine ⟨if w.hotspotsStatus = 200 then w.hotspots else [],
      analyze_code_ok_issues w code filename iss fm s heq, ?_, ?_⟩
    · simpa using hl1
    · by_cases hh : w.hotspotsStatus = 200
      · simpa [hh] using hl2
      · simp [hh]

/-- Witness for C10 at the fully successful concrete run `w10`. -/
theorem c10_single_page_bound_w :
    w10.issues.length ≤ 100 ∧ w10.hotspots.length ≤ 100
    ∧ ∃ hs : List RawHotspot,
        w10.issues.map SonarCloudAnalyzer.issueToFinding ++
            w10.hotspots.map SonarCloudAnalyzer.hotspotToFinding =
          w10.issues.map SonarCloudAnalyzer.issueToFinding ++
            hs.map SonarCloudAnalyzer.hotspotToFinding
        ∧ (w10.issues.map SonarCloudAnalyzer.issueToFinding).length ≤ 100
        ∧ (hs.map SonarCloudAnalyzer.hotspotToFinding).length ≤ 100 :=
  ⟨by decide, by decide,
   (c10_single_page_bound w10 "x = 1" "a.py").2 (by decide) (by decide)
     (w10.issues.map SonarCloudAnalyzer.issueToFinding ++
       w10.hotspots.map SonarCloudAnalyzer.hotspotToFinding)
     (SonarCloudAnalyzer.formatMetrics m10)
     (SonarCloudAnalyzer.generate_summary
       (w10.issues.map SonarCloudAnalyzer.issueToFinding ++
         w10.hotspots.map SonarCloudAnalyzer.hotspotToFinding) m10)
     rfl⟩
